import Mathlib

/-!
Verification of the SQLite wrapper core
(`src/AppInstallerRepositoryCore/SQLiteWrapper.cpp`).

The native SQLite engine is external to the code under verification, so every
native call is modelled by passing its observable inputs (the status code the
engine returns for that call, the engine's error-string function) as explicit
arguments, and by recording the arguments the wrapper hands to the engine in
plain data structures (`OpenCall`, `PrepareCall`, `BindTextCall`).  The wrapper
functions themselves are translated directly from the C++ source.
-/

/-- Exported conventional row-identifier column name (`RowIDName`). -/
def RowIDName : String := "rowid"

/-- Native status code `SQLITE_OK`. -/
def SQLITE_OK : Int := 0

/-- Native status code `SQLITE_ROW`. -/
def SQLITE_ROW : Int := 100

/-- Native status code `SQLITE_DONE`. -/
def SQLITE_DONE : Int := 101

/-- Native column storage-class tag `SQLITE_NULL`. -/
def SQLITE_NULL : Int := 5

/-- Native text-encoding tag `SQLITE_UTF8`. -/
def SQLITE_UTF8 : Nat := 1

/-- Native prepare flag `SQLITE_PREPARE_PERSISTENT`. -/
def SQLITE_PREPARE_PERSISTENT : Nat := 1

/-- The exception thrown by the `THROW_SQLITE` macro: it wraps the native
return value and carries `sqlite3_errstr` of that value as its message. -/
structure SQLiteException where
  code : Int
  msg : String
deriving DecidableEq, Repr

/-- `THROW_SQLITE(code)`, with the engine's `sqlite3_errstr` passed in as
`errstr`. -/
def throwSqlite (errstr : Int → String) (code : Int) : SQLiteException :=
  { code := code, msg := errstr code }

/-- The `THROW_IF_SQLITE_FAILED` macro: succeeds exactly when the native call
returned `SQLITE_OK`, otherwise throws `SQLiteException` via `THROW_SQLITE`. -/
def throwIfSqliteFailed (errstr : Int → String) (r : Int) :
    Except SQLiteException Unit :=
  if r = SQLITE_OK then Except.ok () else Except.error (throwSqlite errstr r)

/-- Outcome of running a wrapper operation: it returns a value, throws a
`SQLiteException`, or terminates the process (`FAIL_FAST_MSG`). -/
inductive CallOutcome (α : Type)
  | ok (a : α)
  | threw (e : SQLiteException)
  | failFast
deriving DecidableEq, Repr

/-- `Statement::State` in the wrapper. -/
inductive StatementState
  | Prepared
  | HasRow
  | Completed
  | Error
deriving DecidableEq, Repr

/-- A prepared statement: its diagnostic id, the SQL text it was compiled
from, the persistent flag used at preparation, and its step-cycle state. -/
structure Statement where
  m_id : Nat
  m_sql : String
  m_persistent : Bool
  m_state : StatementState
deriving DecidableEq, Repr

/-- `Statement::Step(failFastOnError)`.  `native` is the status the engine's
`sqlite3_step` returns for this call.  Translated from the source: `SQLITE_ROW`
sets state `HasRow` and returns true; `SQLITE_DONE` sets state `Completed` and
returns false; anything else sets state `Error` and then either fail-fasts
(when `failFastOnError`) or throws `THROW_SQLITE(result)`. -/
def Statement.Step (s : Statement) (errstr : Int → String) (native : Int)
    (failFastOnError : Bool) : Statement × CallOutcome Bool :=
  if native = SQLITE_ROW then
    ({ s with m_state := StatementState.HasRow }, CallOutcome.ok true)
  else if native = SQLITE_DONE then
    ({ s with m_state := StatementState.Completed }, CallOutcome.ok false)
  else
    ({ s with m_state := StatementState.Error },
      if failFastOnError then CallOutcome.failFast
      else CallOutcome.threw (throwSqlite errstr native))

/-- `Statement::Create` at the SQL-text level: prepares `sql` against the
connection.  `prep` is the status the engine's `sqlite3_prepare_v3` returns;
on success the statement starts in state `Prepared`, otherwise
`THROW_IF_SQLITE_FAILED` throws. -/
def Statement.CreateText (errstr : Int → String) (id : Nat) (sql : String)
    (persistent : Bool) (prep : Int) : Except SQLiteException Statement :=
  if prep = SQLITE_OK then
    Except.ok { m_id := id, m_sql := sql, m_persistent := persistent,
                m_state := StatementState.Prepared }
  else
    Except.error (throwSqlite errstr prep)

/-- A savepoint: its name, the `m_inProgress` flag, and the two retained
member statements `m_rollback` and `m_commit`. -/
structure Savepoint where
  m_name : String
  m_inProgress : Bool
  m_rollback : Statement
  m_commit : Statement
deriving DecidableEq, Repr

/-- The two statements a `Savepoint` retains as members (`m_rollback` and
`m_commit`; the constructor's `begin` statement is a local variable and is
destroyed when construction ends). -/
def Savepoint.retainedStatements (sp : Savepoint) : List Statement :=
  [sp.m_rollback, sp.m_commit]

/-- Result of running the `Savepoint` constructor: the outcome, plus the list
of `Statement` instances constructed during the constructor body, in creation
order and with their state as of creation. -/
structure SavepointCtorResult where
  result : CallOutcome Savepoint
  created : List Statement
deriving DecidableEq, Repr

/-- `Savepoint::Savepoint` / `Savepoint::Create`.  `pb`, `pr`, `pc` are the
native prepare statuses for the begin, rollback and commit statements,
`sb` the native step status for executing the begin statement, and `firstId`
the first value the statement-id counter hands out here.  Translated from the
source: prepare `SAVEPOINT [name]` (not persistent), then `ROLLBACK TO [name]`
and `RELEASE [name]` (both persistent), then `begin.Step()` with the default
(non-fail-fast) mode; `m_inProgress` starts true (member initializer in the
class declaration). -/
def Savepoint.Create (errstr : Int → String) (name : String)
    (pb pr pc sb : Int) (firstId : Nat) : SavepointCtorResult :=
  match Statement.CreateText errstr firstId ("SAVEPOINT [" ++ name ++ "]")
      false pb with
  | Except.error e => { result := CallOutcome.threw e, created := [] }
  | Except.ok beginStmt =>
    match Statement.CreateText errstr (firstId + 1)
        ("ROLLBACK TO [" ++ name ++ "]") true pr with
    | Except.error e =>
        { result := CallOutcome.threw e, created := [beginStmt] }
    | Except.ok rollbackStmt =>
      match Statement.CreateText errstr (firstId + 2)
          ("RELEASE [" ++ name ++ "]") true pc with
      | Except.error e =>
          { result := CallOutcome.threw e, created := [beginStmt, rollbackStmt] }
      | Except.ok commitStmt =>
        match (beginStmt.Step errstr sb false).2 with
        | CallOutcome.threw e =>
            { result := CallOutcome.threw e,
              created := [beginStmt, rollbackStmt, commitStmt] }
        | CallOutcome.failFast =>
            { result := CallOutcome.failFast,
              created := [beginStmt, rollbackStmt, commitStmt] }
        | CallOutcome.ok _ =>
            { result := CallOutcome.ok
                { m_name := name, m_inProgress := true,
                  m_rollback := rollbackStmt, m_commit := commitStmt },
              created := [beginStmt, rollbackStmt, commitStmt] }

/-- `Savepoint::Rollback`.  `native` is the status the engine returns for
stepping the `ROLLBACK TO` statement.  If `m_inProgress`, steps `m_rollback`
in fail-fast mode and clears the flag; otherwise does nothing. -/
def Savepoint.Rollback (sp : Savepoint) (errstr : Int → String)
    (native : Int) : Savepoint × CallOutcome Unit :=
  if sp.m_inProgress then
    match sp.m_rollback.Step errstr native true with
    | (st, CallOutcome.ok _) =>
        ({ sp with m_rollback := st, m_inProgress := false },
          CallOutcome.ok ())
    | (st, CallOutcome.failFast) =>
        ({ sp with m_rollback := st }, CallOutcome.failFast)
    | (st, CallOutcome.threw e) =>
        ({ sp with m_rollback := st }, CallOutcome.threw e)
  else
    (sp, CallOutcome.ok ())

/-- `Savepoint::Commit`.  `native` is the status the engine returns for
stepping the `RELEASE` statement.  If `m_inProgress`, steps `m_commit` in
fail-fast mode and clears the flag; otherwise does nothing. -/
def Savepoint.Commit (sp : Savepoint) (errstr : Int → String)
    (native : Int) : Savepoint × CallOutcome Unit :=
  if sp.m_inProgress then
    match sp.m_commit.Step errstr native true with
    | (st, CallOutcome.ok _) =>
        ({ sp with m_commit := st, m_inProgress := false },
          CallOutcome.ok ())
    | (st, CallOutcome.failFast) =>
        ({ sp with m_commit := st }, CallOutcome.failFast)
    | (st, CallOutcome.threw e) =>
        ({ sp with m_commit := st }, CallOutcome.threw e)
  else
    (sp, CallOutcome.ok ())

/-- `Savepoint::~Savepoint`: the destructor body is exactly `Rollback()`. -/
def Savepoint.destruct (sp : Savepoint) (errstr : Int → String)
    (native : Int) : Savepoint × CallOutcome Unit :=
  sp.Rollback errstr native

/-- One explicit call made on a savepoint, with the native status the engine
would return for the statement that call would step. -/
inductive SavepointOp
  | commit (native : Int)
  | rollback (native : Int)
deriving DecidableEq, Repr

/-- Apply one `SavepointOp`. -/
def Savepoint.applyOp (sp : Savepoint) (errstr : Int → String) :
    SavepointOp → Savepoint × CallOutcome Unit
  | SavepointOp.commit native => sp.Commit errstr native
  | SavepointOp.rollback native => sp.Rollback errstr native

/-- Run a sequence of commit/rollback calls on a savepoint, counting how many
of them actually step their underlying statement (the fail-fast mode means any
non-ok outcome terminates the process, so no later call runs). -/
def Savepoint.runOps (errstr : Int → String) :
    Savepoint → List SavepointOp → Savepoint × Nat
  | sp, [] => (sp, 0)
  | sp, op :: rest =>
    let stepped : Nat := if sp.m_inProgress then 1 else 0
    match sp.applyOp errstr op with
    | (sp', CallOutcome.ok _) =>
        let r := Savepoint.runOps errstr sp' rest
        (r.1, stepped + r.2)
    | (sp', _) => (sp', stepped)

/-- C3: `Step(failFastOnError)` returns true iff the engine reports a row (and
the state becomes `HasRow`); it returns false iff the engine reports done (and
the state becomes `Completed`); for any other native status the state becomes
`Error` and the call fail-fasts when `failFastOnError` is true, or throws the
typed SQLite error wrapping that status when it is false. -/
theorem Statement.Step_characterization (s : Statement) (errstr : Int → String)
    (native : Int) (ff : Bool) :
    ((s.Step errstr native ff).2 = CallOutcome.ok true ↔ native = SQLITE_ROW)
    ∧ ((s.Step errstr native ff).1.m_state = StatementState.HasRow ↔
        native = SQLITE_ROW)
    ∧ ((s.Step errstr native ff).2 = CallOutcome.ok false ↔ native = SQLITE_DONE)
    ∧ ((s.Step errstr native ff).1.m_state = StatementState.Completed ↔
        native = SQLITE_DONE)
    ∧ ((s.Step errstr native ff).1.m_state = StatementState.Error ↔
        (native ≠ SQLITE_ROW ∧ native ≠ SQLITE_DONE))
    ∧ ((s.Step errstr native ff).2 = CallOutcome.failFast ↔
        (ff = true ∧ native ≠ SQLITE_ROW ∧ native ≠ SQLITE_DONE))
    ∧ ((s.Step errstr native ff).2 =
          CallOutcome.threw (throwSqlite errstr native) ↔
        (ff = false ∧ native ≠ SQLITE_ROW ∧ native ≠ SQLITE_DONE)) := by
  cases ff <;>
    by_cases h1 : native = SQLITE_ROW <;>
    by_cases h2 : native = SQLITE_DONE <;>
    simp_all [Statement.Step, SQLITE_ROW, SQLITE_DONE]

/-- A fail-fast `Step` never throws: its outcome is `ok` or `failFast`. -/
lemma Statement.Step_failfast_no_throw (s : Statement) (errstr : Int → String)
    (native : Int) (ex : SQLiteException) :
    (s.Step errstr native true).2 ≠ CallOutcome.threw ex := by
  by_cases h1 : native = SQLITE_ROW <;>
    by_cases h2 : native = SQLITE_DONE <;>
    simp_all [Statement.Step, SQLITE_ROW, SQLITE_DONE]

/-- On a terminal savepoint (`m_inProgress = false`), `Rollback` does
nothing. -/
lemma Savepoint.Rollback_terminal (sp : Savepoint) (errstr : Int → String)
    (native : Int) (h : sp.m_inProgress = false) :
    sp.Rollback errstr native = (sp, CallOutcome.ok ()) := by
  simp [Savepoint.Rollback, h]

/-- On a terminal savepoint (`m_inProgress = false`), `Commit` does
nothing. -/
lemma Savepoint.Commit_terminal (sp : Savepoint) (errstr : Int → String)
    (native : Int) (h : sp.m_inProgress = false) :
    sp.Commit errstr native = (sp, CallOutcome.ok ()) := by
  simp [Savepoint.Commit, h]

/-- On a terminal savepoint, any commit/rollback call does nothing. -/
lemma Savepoint.applyOp_terminal (sp : Savepoint) (errstr : Int → String)
    (op : SavepointOp) (h : sp.m_inProgress = false) :
    sp.applyOp errstr op = (sp, CallOutcome.ok ()) := by
  cases op <;>
    simp [Savepoint.applyOp, Savepoint.Rollback_terminal _ _ _ h,
      Savepoint.Commit_terminal _ _ _ h]

/-- An op that returns normally leaves the savepoint terminal. -/
lemma Savepoint.applyOp_ok_terminal (sp sp' : Savepoint)
    (errstr : Int → String) (op : SavepointOp)
    (h : sp.applyOp errstr op = (sp', CallOutcome.ok ())) :
    sp'.m_inProgress = false := by
  by_cases hin : sp.m_inProgress = true
  · cases op with
    | commit native =>
      simp only [Savepoint.applyOp, Savepoint.Commit, hin, if_true] at h
      rcases hs : sp.m_commit.Step errstr native true with ⟨st, out⟩
      rw [hs] at h
      cases out with
      | ok a =>
          have h2 : ({ sp with m_inProgress := false, m_commit := st } :
              Savepoint) = sp' := congrArg Prod.fst h
          rw [← h2]
      | threw e => exact absurd (congrArg Prod.snd h) (by simp)
      | failFast => exact absurd (congrArg Prod.snd h) (by simp)
    | rollback native =>
      simp only [Savepoint.applyOp, Savepoint.Rollback, hin, if_true] at h
      rcases hs : sp.m_rollback.Step errstr native true with ⟨st, out⟩
      rw [hs] at h
      cases out with
      | ok a =>
          have h2 : ({ sp with m_inProgress := false, m_rollback := st } :
              Savepoint) = sp' := congrArg Prod.fst h
          rw [← h2]
      | threw e => exact absurd (congrArg Prod.snd h) (by simp)
      | failFast => exact absurd (congrArg Prod.snd h) (by simp)
  · replace hin : sp.m_inProgress = false := by simpa using hin
    have := Savepoint.applyOp_terminal sp errstr op hin
    rw [this] at h
    have h2 : sp = sp' := congrArg Prod.fst h
    rw [← h2]
    exact hin

/-- On a terminal savepoint, a whole sequence of commit/rollback calls does
nothing and steps no statement. -/
lemma Savepoint.runOps_terminal (errstr : Int → String) (sp : Savepoint)
    (ops : List SavepointOp) (h : sp.m_inProgress = false) :
    Savepoint.runOps errstr sp ops = (sp, 0) := by
  induction ops with
  | nil => rfl
  | cons op rest ih =>
      simp [Savepoint.runOps, Savepoint.applyOp_terminal _ _ _ h, h, ih]

/-- `Rollback` never raises a recoverable error: the underlying step is
fail-fast, so its outcome is `ok` or `failFast`, never `threw`. -/
lemma Savepoint.Rollback_no_throw (sp : Savepoint) (errstr : Int → String)
    (native : Int) (ex : SQLiteException) :
    (sp.Rollback errstr native).2 ≠ CallOutcome.threw ex := by
  by_cases hp : sp.m_inProgress = true
  · simp only [Savepoint.Rollback, hp, if_true]
    rcases hs : sp.m_rollback.Step errstr native true with ⟨st, out⟩
    cases out with
    | ok a => simp
    | failFast => simp
    | threw e =>
        have hnt := Statement.Step_failfast_no_throw sp.m_rollback errstr
          native e
        rw [hs] at hnt
        exact absurd rfl hnt
  · replace hp : sp.m_inProgress = false := by simpa using hp
    simp [Savepoint.Rollback, hp]

/-- `Commit` never raises a recoverable error: the underlying step is
fail-fast, so its outcome is `ok` or `failFast`, never `threw`. -/
lemma Savepoint.Commit_no_throw (sp : Savepoint) (errstr : Int → String)
    (native : Int) (ex : SQLiteException) :
    (sp.Commit errstr native).2 ≠ CallOutcome.threw ex := by
  by_cases hp : sp.m_inProgress = true
  · simp only [Savepoint.Commit, hp, if_true]
    rcases hs : sp.m_commit.Step errstr native true with ⟨st, out⟩
    cases out with
    | ok a => simp
    | failFast => simp
    | threw e =>
        have hnt := Statement.Step_failfast_no_throw sp.m_commit errstr
          native e
        rw [hs] at hnt
        exact absurd rfl hnt
  · replace hp : sp.m_inProgress = false := by simpa using hp
    simp [Savepoint.Commit, hp]

/-- An in-progress example savepoint, as built by a successful
`Savepoint::Create` for the name `s`. -/
def spEx : Savepoint :=
  { m_name := "s", m_inProgress := true,
    m_rollback := { m_id := 2, m_sql := "ROLLBACK TO [s]",
                    m_persistent := true, m_state := StatementState.Prepared },
    m_commit := { m_id := 3, m_sql := "RELEASE [s]",
                  m_persistent := true, m_state := StatementState.Prepared } }

/-- The same savepoint after it has reached a terminal state. -/
def spTermEx : Savepoint := { spEx with m_inProgress := false }

/-- A concrete stand-in for the engine's `sqlite3_errstr`. -/
def errstr0 : Int → String := fun _ => "sqlite error"

/-- C1: destruction of a savepoint whose in-progress flag is still set
performs a rollback: the destructor body is exactly `Rollback()`, which steps
the `ROLLBACK TO` statement and clears the in-progress flag, so (when the
engine accepts the rollback) no exit path leaves the savepoint open. -/
theorem Savepoint.destructor_rolls_back (sp : Savepoint)
    (errstr : Int → String) (native : Int)
    (hin : sp.m_inProgress = true)
    (hok : native = SQLITE_ROW ∨ native = SQLITE_DONE) :
    sp.destruct errstr native = sp.Rollback errstr native
    ∧ (sp.destruct errstr native).1.m_inProgress = false
    ∧ (sp.destruct errstr native).1.m_rollback =
        (sp.m_rollback.Step errstr native true).1
    ∧ (sp.destruct errstr native).2 = CallOutcome.ok () := by
  refine ⟨rfl, ?_⟩
  rcases hok with h | h <;>
    subst h <;>
    simp [Savepoint.destruct, Savepoint.Rollback, Statement.Step, hin,
      SQLITE_ROW, SQLITE_DONE]

/-- Witness for C1 at a concrete in-progress savepoint with the engine
reporting done. -/
theorem Savepoint.destructor_rolls_back_witness :
    spEx.m_inProgress = true
    ∧ (SQLITE_DONE = SQLITE_ROW ∨ SQLITE_DONE = SQLITE_DONE)
    ∧ (spEx.destruct errstr0 SQLITE_DONE = spEx.Rollback errstr0 SQLITE_DONE
       ∧ (spEx.destruct errstr0 SQLITE_DONE).1.m_inProgress = false
       ∧ (spEx.destruct errstr0 SQLITE_DONE).1.m_rollback =
           (spEx.m_rollback.Step errstr0 SQLITE_DONE true).1
       ∧ (spEx.destruct errstr0 SQLITE_DONE).2 = CallOutcome.ok ()) :=
  ⟨rfl, Or.inr rfl,
    Savepoint.destructor_rolls_back spEx errstr0 SQLITE_DONE rfl (Or.inr rfl)⟩

/-- C2: over any sequence of commit/rollback calls, at most one underlying
statement step ever executes, and on a savepoint that is already terminal
both `Commit` and `Rollback` perform no operation and raise no error. -/
theorem Savepoint.commit_rollback_at_most_once (errstr : Int → String)
    (sp : Savepoint) (ops : List SavepointOp) (native : Int) :
    (Savepoint.runOps errstr sp ops).2 ≤ 1
    ∧ (sp.m_inProgress = false →
        sp.Commit errstr native = (sp, CallOutcome.ok ())
        ∧ sp.Rollback errstr native = (sp, CallOutcome.ok ())) := by
  constructor
  · induction ops generalizing sp with
    | nil => simp [Savepoint.runOps]
    | cons op rest ih =>
      by_cases h : sp.m_inProgress = true
      · rcases hA : sp.applyOp errstr op with ⟨sp', out⟩
        cases out with
        | ok a =>
          cases a
          have hterm := Savepoint.applyOp_ok_terminal sp sp' errstr op hA
          have hrest := Savepoint.runOps_terminal errstr sp' rest hterm
          simp [Savepoint.runOps, hA, h, hrest]
        | threw e => simp [Savepoint.runOps, hA, h]
        | failFast => simp [Savepoint.runOps, hA, h]
      · replace h : sp.m_inProgress = false := by simpa using h
        simp [Savepoint.runOps_terminal errstr sp _ h]
  · intro h
    exact ⟨Savepoint.Commit_terminal sp errstr native h,
      Savepoint.Rollback_terminal sp errstr native h⟩

/-- Witness for C2: a commit followed by a rollback on a concrete in-progress
savepoint steps at most one statement, and on a terminal savepoint both calls
are no-ops. -/
theorem Savepoint.commit_rollback_at_most_once_witness :
    (Savepoint.runOps errstr0 spEx
        [SavepointOp.commit SQLITE_DONE, SavepointOp.rollback SQLITE_DONE]).2 ≤ 1
    ∧ spTermEx.m_inProgress = false
    ∧ (spTermEx.Commit errstr0 SQLITE_DONE = (spTermEx, CallOutcome.ok ())
       ∧ spTermEx.Rollback errstr0 SQLITE_DONE = (spTermEx, CallOutcome.ok ())) :=
  ⟨(Savepoint.commit_rollback_at_most_once errstr0 spEx
      [SavepointOp.commit SQLITE_DONE, SavepointOp.rollback SQLITE_DONE]
      SQLITE_DONE).1,
   rfl,
   (Savepoint.commit_rollback_at_most_once errstr0 spTermEx [] SQLITE_DONE).2
     rfl⟩

/-- C4: on an in-progress savepoint, when the engine reports a status other
than row or done for the rollback/commit step, both `Rollback` and `Commit`
terminate the process (fail-fast); and neither ever raises a recoverable
error, for any savepoint and any native status. -/
theorem Savepoint.rollback_commit_fail_fast (sp : Savepoint)
    (errstr : Int → String) (native : Int)
    (hin : sp.m_inProgress = true)
    (h1 : native ≠ SQLITE_ROW) (h2 : native ≠ SQLITE_DONE) :
    (sp.Rollback errstr native).2 = CallOutcome.failFast
    ∧ (sp.Commit errstr native).2 = CallOutcome.failFast
    ∧ ∀ (sp2 : Savepoint) (n2 : Int) (ex : SQLiteException),
        (sp2.Rollback errstr n2).2 ≠ CallOutcome.threw ex
        ∧ (sp2.Commit errstr n2).2 ≠ CallOutcome.threw ex := by
  refine ⟨?_, ?_, ?_⟩
  · simp [Savepoint.Rollback, hin, Statement.Step, h1, h2]
  · simp [Savepoint.Commit, hin, Statement.Step, h1, h2]
  · intro sp2 n2 ex
    exact ⟨Savepoint.Rollback_no_throw sp2 errstr n2 ex,
      Savepoint.Commit_no_throw sp2 errstr n2 ex⟩

/-- Witness for C4 at a concrete in-progress savepoint with the engine
reporting `SQLITE_ERROR` (1). -/
theorem Savepoint.rollback_commit_fail_fast_witness :
    spEx.m_inProgress = true
    ∧ (1 : Int) ≠ SQLITE_ROW
    ∧ (1 : Int) ≠ SQLITE_DONE
    ∧ ((spEx.Rollback errstr0 1).2 = CallOutcome.failFast
       ∧ (spEx.Commit errstr0 1).2 = CallOutcome.failFast
       ∧ ∀ (sp2 : Savepoint) (n2 : Int) (ex : SQLiteException),
           (sp2.Rollback errstr0 n2).2 ≠ CallOutcome.threw ex
           ∧ (sp2.Commit errstr0 n2).2 ≠ CallOutcome.threw ex) :=
  ⟨rfl, by decide, by decide,
    Savepoint.rollback_commit_fail_fast spEx errstr0 1 rfl (by decide)
      (by decide)⟩

/-- C5: `Savepoint::Create` prepares `SAVEPOINT [name]` (not persistent),
`ROLLBACK TO [name]` and `RELEASE [name]` (persistent, not executed), then
synchronously executes the SAVEPOINT statement; if any of the three
preparations fails or the SAVEPOINT step fails, construction throws the
corresponding `Statement` error and no savepoint results. -/
theorem Savepoint.Create_spec (errstr : Int → String) (name : String)
    (pb pr pc sb : Int) (firstId : Nat) :
    (pb ≠ SQLITE_OK →
      Savepoint.Create errstr name pb pr pc sb firstId =
        { result := CallOutcome.threw (throwSqlite errstr pb), created := [] })
    ∧ (pb = SQLITE_OK → pr ≠ SQLITE_OK →
      Savepoint.Create errstr name pb pr pc sb firstId =
        { result := CallOutcome.threw (throwSqlite errstr pr),
          created := [⟨firstId, "SAVEPOINT [" ++ name ++ "]", false,
            StatementState.Prepared⟩] })
    ∧ (pb = SQLITE_OK → pr = SQLITE_OK → pc ≠ SQLITE_OK →
      Savepoint.Create errstr name pb pr pc sb firstId =
        { result := CallOutcome.threw (throwSqlite errstr pc),
          created := [⟨firstId, "SAVEPOINT [" ++ name ++ "]", false,
              StatementState.Prepared⟩,
            ⟨firstId + 1, "ROLLBACK TO [" ++ name ++ "]", true,
              StatementState.Prepared⟩] })
    ∧ (pb = SQLITE_OK → pr = SQLITE_OK → pc = SQLITE_OK →
        (sb = SQLITE_ROW ∨ sb = SQLITE_DONE) →
      Savepoint.Create errstr name pb pr pc sb firstId =
        { result := CallOutcome.ok
            { m_name := name, m_inProgress := true,
              m_rollback := ⟨firstId + 1, "ROLLBACK TO [" ++ name ++ "]",
                true, StatementState.Prepared⟩,
              m_commit := ⟨firstId + 2, "RELEASE [" ++ name ++ "]", true,
                StatementState.Prepared⟩ },
          created := [⟨firstId, "SAVEPOINT [" ++ name ++ "]", false,
              StatementState.Prepared⟩,
            ⟨firstId + 1, "ROLLBACK TO [" ++ name ++ "]", true,
              StatementState.Prepared⟩,
            ⟨firstId + 2, "RELEASE [" ++ name ++ "]", true,
              StatementState.Prepared⟩] })
    ∧ (pb = SQLITE_OK → pr = SQLITE_OK → pc = SQLITE_OK →
        sb ≠ SQLITE_ROW → sb ≠ SQLITE_DONE →
      (Savepoint.Create errstr name pb pr pc sb firstId).result =
        CallOutcome.threw (throwSqlite errstr sb)) := by
  refine ⟨?_, ?_, ?_, ?_, ?_⟩
  · intro h
    simp [Savepoint.Create, Statement.CreateText, h]
  · intro hb h
    simp [Savepoint.Create, Statement.CreateText, hb, h]
  · intro hb hr h
    simp [Savepoint.Create, Statement.CreateText, hb, hr, h]
  · intro hb hr hc h
    rcases h with h | h <;> subst h <;>
      simp [Savepoint.Create, Statement.CreateText, Statement.Step, hb, hr,
        hc, SQLITE_ROW, SQLITE_DONE]
  · intro hb hr hc h1 h2
    simp [Savepoint.Create, Statement.CreateText, Statement.Step, hb, hr,
      hc, h1, h2]

/-- Witness for C5: a fully successful construction for the name `s`. -/
theorem Savepoint.Create_spec_witness :
    (SQLITE_OK : Int) = SQLITE_OK
    ∧ (SQLITE_DONE = SQLITE_ROW ∨ SQLITE_DONE = SQLITE_DONE)
    ∧ Savepoint.Create errstr0 "s" SQLITE_OK SQLITE_OK SQLITE_OK SQLITE_DONE
        1 =
      { result := CallOutcome.ok
          { m_name := "s", m_inProgress := true,
            m_rollback := ⟨2, "ROLLBACK TO [" ++ "s" ++ "]", true,
              StatementState.Prepared⟩,
            m_commit := ⟨3, "RELEASE [" ++ "s" ++ "]", true,
              StatementState.Prepared⟩ },
        created := [⟨1, "SAVEPOINT [" ++ "s" ++ "]", false,
            StatementState.Prepared⟩,
          ⟨2, "ROLLBACK TO [" ++ "s" ++ "]", true, StatementState.Prepared⟩,
          ⟨3, "RELEASE [" ++ "s" ++ "]", true, StatementState.Prepared⟩] } :=
  ⟨rfl, Or.inr rfl,
    (Savepoint.Create_spec errstr0 "s" SQLITE_OK SQLITE_OK SQLITE_OK
        SQLITE_DONE 1).2.2.2.1 rfl rfl rfl (Or.inr rfl)⟩

/-- C10 counterexample: at a concrete successful construction the savepoint
retains two statements, not three — the `begin` statement (`SAVEPOINT [s]`,
constructor-local) is not among the retained members. -/
theorem Savepoint.retains_two_not_three_cex :
    (Savepoint.Create errstr0 "s" SQLITE_OK SQLITE_OK SQLITE_OK SQLITE_DONE
        1).result = CallOutcome.ok spEx
    ∧ (Savepoint.retainedStatements spEx).length = 2
    ∧ ¬ (Savepoint.retainedStatements spEx).length = 3
    ∧ ¬ (⟨1, "SAVEPOINT [s]", false, StatementState.Prepared⟩ : Statement)
        ∈ Savepoint.retainedStatements spEx := by
  refine ⟨?_, rfl, by decide, ?_⟩
  · rfl
  · simp [Savepoint.retainedStatements, spEx]

/-- C10 amended: the constructor builds three statements (begin, rollback,
commit), but only the rollback and commit statements are retained as members
for the savepoint's lifetime; the begin statement is constructor-local and is
not retained. -/
theorem Savepoint.retains_rollback_and_commit (errstr : Int → String)
    (name : String) (pb pr pc sb : Int) (firstId : Nat)
    (hb : pb = SQLITE_OK) (hr : pr = SQLITE_OK) (hc : pc = SQLITE_OK)
    (hstep : sb = SQLITE_ROW ∨ sb = SQLITE_DONE) :
    (Savepoint.Create errstr name pb pr pc sb firstId).created.length = 3
    ∧ (Savepoint.Create errstr name pb pr pc sb firstId).result =
        CallOutcome.ok
          { m_name := name, m_inProgress := true,
            m_rollback := ⟨firstId + 1, "ROLLBACK TO [" ++ name ++ "]",
              true, StatementState.Prepared⟩,
            m_commit := ⟨firstId + 2, "RELEASE [" ++ name ++ "]", true,
              StatementState.Prepared⟩ }
    ∧ Savepoint.retainedStatements
        { m_name := name, m_inProgress := true,
          m_rollback := ⟨firstId + 1, "ROLLBACK TO [" ++ name ++ "]", true,
            StatementState.Prepared⟩,
          m_commit := ⟨firstId + 2, "RELEASE [" ++ name ++ "]", true,
            StatementState.Prepared⟩ } =
        [⟨firstId + 1, "ROLLBACK TO [" ++ name ++ "]", true,
            StatementState.Prepared⟩,
          ⟨firstId + 2, "RELEASE [" ++ name ++ "]", true,
            StatementState.Prepared⟩]
    ∧ ¬ (⟨firstId, "SAVEPOINT [" ++ name ++ "]", false,
          StatementState.Prepared⟩ : Statement)
        ∈ Savepoint.retainedStatements
            { m_name := name, m_inProgress := true,
              m_rollback := ⟨firstId + 1, "ROLLBACK TO [" ++ name ++ "]",
                true, StatementState.Prepared⟩,
              m_commit := ⟨firstId + 2, "RELEASE [" ++ name ++ "]", true,
                StatementState.Prepared⟩ } := by
  have h4 := (Savepoint.Create_spec errstr name pb pr pc sb firstId).2.2.2.1
    hb hr hc hstep
  refine ⟨?_, ?_, rfl, ?_⟩
  · rw [h4]
    rfl
  · rw [h4]
  · simp [Savepoint.retainedStatements, Statement.mk.injEq]

/-- Witness for C10 (amended) at a concrete successful construction. -/
theorem Savepoint.retains_rollback_and_commit_witness :
    (SQLITE_OK : Int) = SQLITE_OK
    ∧ (SQLITE_DONE = SQLITE_ROW ∨ SQLITE_DONE = SQLITE_DONE)
    ∧ (Savepoint.Create errstr0 "t" SQLITE_OK SQLITE_OK SQLITE_OK
        SQLITE_DONE 7).created.length = 3 :=
  ⟨rfl, Or.inr rfl,
    (Savepoint.retains_rollback_and_commit errstr0 "t" SQLITE_OK SQLITE_OK
        SQLITE_OK SQLITE_DONE 7 rfl rfl rfl (Or.inr rfl)).1⟩

/-- Ownership mode handed to the native text-bind call: `SQLITE_TRANSIENT`
(the engine copies the bytes immediately) or `SQLITE_STATIC`. -/
inductive TextOwnership
  | transient
  | staticBuffer
deriving DecidableEq, Repr

/-- The arguments the wrapper passes to `sqlite3_bind_text64`. -/
structure BindTextCall where
  index : Int
  data : String
  byteLength : Nat
  ownership : TextOwnership
  encoding : Nat
deriving DecidableEq, Repr

/-- `ParameterSpecificsImpl<std::string>::Bind`: binds `v.c_str()` with byte
length `v.size()`, `SQLITE_TRANSIENT` and `SQLITE_UTF8`, and throws through
`THROW_IF_SQLITE_FAILED` on a non-success native status `native`. -/
def ParameterSpecificsImpl.BindString (errstr : Int → String) (index : Int)
    (v : String) (native : Int) : BindTextCall × Except SQLiteException Unit :=
  ({ index := index, data := v, byteLength := v.utf8ByteSize,
     ownership := TextOwnership.transient, encoding := SQLITE_UTF8 },
   throwIfSqliteFailed errstr native)

/-- `ParameterSpecificsImpl<std::string_view>::Bind`: binds `v.data()` with
byte length `v.size()`, `SQLITE_TRANSIENT` and `SQLITE_UTF8`, and throws
through `THROW_IF_SQLITE_FAILED` on a non-success native status. -/
def ParameterSpecificsImpl.BindStringView (errstr : Int → String)
    (index : Int) (v : String) (native : Int) :
    BindTextCall × Except SQLiteException Unit :=
  ({ index := index, data := v, byteLength := v.utf8ByteSize,
     ownership := TextOwnership.transient, encoding := SQLITE_UTF8 },
   throwIfSqliteFailed errstr native)

/-- C6: both text bind overloads bind with transient copy semantics, explicit
UTF-8 encoding and explicit byte length equal to the value's size, and raise
the `SQLiteException` wrapping the native status — with the engine's
error-code string as message — exactly when the native bind call returns a
non-success status. -/
theorem ParameterSpecificsImpl.Bind_text_spec (errstr : Int → String)
    (index : Int) (v : String) (native : Int) :
    (ParameterSpecificsImpl.BindString errstr index v native).1 =
      { index := index, data := v, byteLength := v.utf8ByteSize,
        ownership := TextOwnership.transient, encoding := SQLITE_UTF8 }
    ∧ (ParameterSpecificsImpl.BindStringView errstr index v native).1 =
      { index := index, data := v, byteLength := v.utf8ByteSize,
        ownership := TextOwnership.transient, encoding := SQLITE_UTF8 }
    ∧ ((ParameterSpecificsImpl.BindString errstr index v native).2 =
          Except.error { code := native, msg := errstr native } ↔
        native ≠ SQLITE_OK)
    ∧ ((ParameterSpecificsImpl.BindString errstr index v native).2 =
          Except.ok () ↔ native = SQLITE_OK)
    ∧ (ParameterSpecificsImpl.BindStringView errstr index v native).2 =
        (ParameterSpecificsImpl.BindString errstr index v native).2 := by
  by_cases h : native = SQLITE_OK <;>
    simp [ParameterSpecificsImpl.BindString,
      ParameterSpecificsImpl.BindStringView, throwIfSqliteFailed,
      throwSqlite, h]

/-- The arguments the wrapper passes to `sqlite3_open_v2`. -/
structure OpenCall where
  target : String
  flags : Nat
deriving DecidableEq, Repr

/-- A connection: the target it was opened on and whether extended result
codes have been enabled on its handle. -/
structure Connection where
  target : String
  extendedResultCodes : Bool
deriving DecidableEq, Repr

/-- `Connection::Connection`: combines `disposition | flags` into one integer
bitmask, passes it to `sqlite3_open_v2` (whose status is `openResult`), and
throws through `THROW_IF_SQLITE_FAILED` on failure. -/
def Connection.ctor (errstr : Int → String) (target : String)
    (disposition flags : Nat) (openResult : Int) :
    OpenCall × Except SQLiteException Connection :=
  ({ target := target, flags := Nat.lor disposition flags },
   if openResult = SQLITE_OK then
     Except.ok { target := target, extendedResultCodes := false }
   else
     Except.error (throwSqlite errstr openResult))

/-- `Connection::Create`: runs the constructor, then enables extended result
codes on the opened handle (`sqlite3_extended_result_codes`, whose status is
`extResult`), throwing through `THROW_IF_SQLITE_FAILED` on failure. -/
def Connection.Create (errstr : Int → String) (target : String)
    (disposition flags : Nat) (openResult extResult : Int) :
    OpenCall × Except SQLiteException Connection :=
  let c := Connection.ctor errstr target disposition flags openResult
  (c.1,
   match c.2 with
   | Except.error e => Except.error e
   | Except.ok conn =>
     if extResult = SQLITE_OK then
       Except.ok { conn with extendedResultCodes := true }
     else
       Except.error (throwSqlite errstr extResult))

/-- C7: `Connection::Create` passes exactly `disposition | flags` as the
single flags argument of the native open call for every combination (no
validation), then enables extended result codes; it fails with the exception
wrapping the native status iff the open call or the
extended-result-codes call returns a non-success status. -/
theorem Connection.open_flags_passthrough (errstr : Int → String) (target : String)
    (disposition flags : Nat) (openResult extResult : Int) :
    (Connection.Create errstr target disposition flags openResult
        extResult).1 =
      { target := target, flags := Nat.lor disposition flags }
    ∧ ((Connection.Create errstr target disposition flags openResult
          extResult).2 =
        Except.ok { target := target, extendedResultCodes := true } ↔
        (openResult = SQLITE_OK ∧ extResult = SQLITE_OK))
    ∧ (openResult ≠ SQLITE_OK →
        (Connection.Create errstr target disposition flags openResult
            extResult).2 =
          Except.error (throwSqlite errstr openResult))
    ∧ (openResult = SQLITE_OK → extResult ≠ SQLITE_OK →
        (Connection.Create errstr target disposition flags openResult
            extResult).2 =
          Except.error (throwSqlite errstr extResult)) := by
  by_cases h1 : openResult = SQLITE_OK <;>
    by_cases h2 : extResult = SQLITE_OK <;>
    simp [Connection.Create, Connection.ctor, h1, h2]

/-- Witness for C7: `CreateNew | ReadOnly`-style flag values (4 and 1) are
passed through uninspected as the bitmask 5, and a failing open
(`SQLITE_CANTOPEN` = 14) surfaces as the wrapped exception. -/
theorem Connection.open_flags_passthrough_witness :
    (Connection.Create errstr0 "db" 4 1 14 SQLITE_OK).1 =
      { target := "db", flags := 5 }
    ∧ (14 : Int) ≠ SQLITE_OK
    ∧ (Connection.Create errstr0 "db" 4 1 14 SQLITE_OK).2 =
        Except.error (throwSqlite errstr0 14) :=
  ⟨(Connection.open_flags_passthrough errstr0 "db" 4 1 14 SQLITE_OK).1, by decide,
    (Connection.open_flags_passthrough errstr0 "db" 4 1 14 SQLITE_OK).2.2.1 (by decide)⟩

/-- The arguments the wrapper passes to `sqlite3_prepare_v3`: the byte buffer
reachable from `sql.data()`, the byte length passed (`size() + 1`), and the
prepare-flags value. -/
structure PrepareCall where
  buffer : List Nat
  nByte : Nat
  prepFlags : Nat
deriving DecidableEq, Repr

/-- `strlen` on a byte buffer: the number of bytes before the first 0. -/
def strlen : List Nat → Nat
  | [] => 0
  | b :: rest => if b = 0 then 0 else strlen rest + 1

/-- The `Statement` constructor's assertion
`sql.data()[sql.size()] == '\x30'` with 0 for the null character: the byte at
position `size` of the buffer is 0. -/
def Statement.ctorAssertHolds (buffer : List Nat) (size : Nat) : Bool :=
  buffer[size]? == some 0

/-- The prepare call the `Statement` constructor makes: the buffer, length
`size + 1` (the SQL string size including the null terminator), and
`SQLITE_PREPARE_PERSISTENT` when the persistent flag is set. -/
def Statement.ctorPrepareCall (buffer : List Nat) (size : Nat)
    (persistent : Bool) : PrepareCall :=
  { buffer := buffer, nByte := size + 1,
    prepFlags := if persistent then SQLITE_PREPARE_PERSISTENT else 0 }

/-- The buffer `c_str()` of an owned `std::string` exposes: the content bytes
followed by a guaranteed null terminator. -/
def cStrBuffer (bytes : List Nat) : List Nat := bytes ++ [0]

/-- `Statement::Create(connection, const std::string&, bool)`: builds the
view `(sql.c_str(), sql.size())` over the owned string's null-terminated
buffer and runs the constructor; returns the constructor's prepare call and
whether its assertion holds. -/
def Statement.CreateFromStdString (bytes : List Nat) (persistent : Bool) :
    PrepareCall × Bool :=
  (Statement.ctorPrepareCall (cStrBuffer bytes) bytes.length persistent,
   Statement.ctorAssertHolds (cStrBuffer bytes) bytes.length)

/-- `Statement::Create(connection, std::string_view, bool)`: copies the
borrowed view into an owned `std::string` (the only way to guarantee null
termination) and delegates to the owned-string overload; it never compiles
directly against the borrowed view's buffer. -/
def Statement.CreateFromStringView (viewBytes : List Nat)
    (persistent : Bool) : PrepareCall × Bool :=
  Statement.CreateFromStdString viewBytes persistent

/-- `Statement::Create(connection, char const* const, bool)`: the character
literal's buffer is null-terminated by the language; the `string_view` built
from the pointer has size `strlen buffer`. -/
def Statement.CreateFromCharLiteral (buffer : List Nat) (persistent : Bool) :
    PrepareCall × Bool :=
  (Statement.ctorPrepareCall buffer (strlen buffer) persistent,
   Statement.ctorAssertHolds buffer (strlen buffer))

/-- In a buffer that contains a 0 byte, the byte at position `strlen` is 0. -/
lemma strlen_getElem (buffer : List Nat) (h : 0 ∈ buffer) :
    buffer[strlen buffer]? = some 0 := by
  induction buffer with
  | nil => cases h
  | cons b rest ih =>
    by_cases hb : b = 0
    · subst hb
      simp [strlen]
    · have hr : 0 ∈ rest := by
        rcases List.mem_cons.mp h with h0 | h0
        · exact absurd h0.symm hb
        · exact h0
      simp [strlen, hb, ih hr]

/-- Appending one element and indexing at the original length yields it. -/
lemma getElem_concat_length (l : List Nat) (a : Nat) :
    (l ++ [a])[l.length]? = some a := by
  induction l with
  | nil => rfl
  | cons b rest ih => simp

/-- C8: the buffer handed to the native prepare call is null-terminated with
the length passed including the trailing null: the owned-string overload
passes the `c_str()` buffer with length `size() + 1` and the constructor's
assertion holds; the borrowed-view overload is exactly the owned-string
overload applied to an internal copy; and the character-literal overload
relies on the language's intrinsic null terminator. -/
theorem Statement.Create_null_terminated (bytes : List Nat)
    (persistent : Bool) (litBuf : List Nat) (hlit : 0 ∈ litBuf) :
    (Statement.CreateFromStdString bytes persistent).2 = true
    ∧ (Statement.CreateFromStdString bytes persistent).1.nByte =
        bytes.length + 1
    ∧ (Statement.CreateFromStdString bytes persistent).1.buffer =
        bytes ++ [0]
    ∧ Statement.CreateFromStringView bytes persistent =
        Statement.CreateFromStdString bytes persistent
    ∧ (Statement.CreateFromCharLiteral litBuf persistent).2 = true
    ∧ (Statement.CreateFromCharLiteral litBuf persistent).1.nByte =
        strlen litBuf + 1 := by
  refine ⟨?_, rfl, rfl, rfl, ?_, rfl⟩
  · simp [Statement.CreateFromStdString, Statement.ctorAssertHolds,
      cStrBuffer, getElem_concat_length]
  · simp [Statement.CreateFromCharLiteral, Statement.ctorAssertHolds,
      strlen_getElem litBuf hlit]

/-- Witness for C8 on the bytes of `SELECT 1` and a concrete null-terminated
literal buffer. -/
theorem Statement.Create_null_terminated_witness :
    (0 : Nat) ∈ [83, 69, 76, 0]
    ∧ (Statement.CreateFromStdString [83, 69, 76, 69, 67, 84, 32, 49]
        false).2 = true
    ∧ (Statement.CreateFromStdString [83, 69, 76, 69, 67, 84, 32, 49]
        false).1.nByte = 9
    ∧ (Statement.CreateFromCharLiteral [83, 69, 76, 0] false).2 = true :=
  ⟨by decide,
    (Statement.Create_null_terminated [83, 69, 76, 69, 67, 84, 32, 49] false
      [83, 69, 76, 0] (by decide)).1,
    (Statement.Create_null_terminated [83, 69, 76, 69, 67, 84, 32, 49] false
      [83, 69, 76, 0] (by decide)).2.1,
    (Statement.Create_null_terminated [83, 69, 76, 69, 67, 84, 32, 49] false
      [83, 69, 76, 0] (by decide)).2.2.2.2.1⟩

/-- A stored column value, by its SQLite storage class. -/
inductive ColumnValue
  | null
  | integer (i : Int)
  | text (s : String)
  | blob (b : List Nat)
deriving DecidableEq, Repr

/-- `sqlite3_column_type`: the storage-class tag of the stored value
(`SQLITE_INTEGER` = 1, `SQLITE_TEXT` = 3, `SQLITE_BLOB` = 4,
`SQLITE_NULL` = 5). -/
def sqlite3_column_type : ColumnValue → Int
  | ColumnValue.null => SQLITE_NULL
  | ColumnValue.integer _ => 1
  | ColumnValue.text _ => 3
  | ColumnValue.blob _ => 4

/-- `sqlite3_column_text`: yields the column bytes as UTF-8 text, converting
non-text storage classes, and yields the null pointer (`none`) exactly for a
stored SQL NULL. -/
def sqlite3_column_text : ColumnValue → Option String
  | ColumnValue.null => none
  | ColumnValue.integer i => some (toString i)
  | ColumnValue.text s => some s
  | ColumnValue.blob b => some (String.mk (b.map Char.ofNat))

/-- `Statement::GetColumnIsNull`: compares `sqlite3_column_type` against
`SQLITE_NULL`. -/
def Statement.GetColumnIsNull (v : ColumnValue) : Bool :=
  sqlite3_column_type v == SQLITE_NULL

/-- `ParameterSpecificsImpl<std::string>::GetColumn`: constructs a
`std::string` from the pointer `sqlite3_column_text` returns; `none` models
the null pointer, from which the string construction is undefined. -/
def ParameterSpecificsImpl.GetColumnString (v : ColumnValue) :
    Option String :=
  sqlite3_column_text v

/-- C9: `GetColumnIsNull` is true exactly on a stored SQL NULL; the native
text accessor yields the null pointer exactly in that case, so under the
precondition `GetColumnIsNull = false` the string construction in
`GetColumn<std::string>` is defined; and on a text column it returns the
column's bytes as UTF-8 text. -/
theorem Statement.GetColumn_null_safety (v : ColumnValue) (s : String) :
    (Statement.GetColumnIsNull v = true ↔
      sqlite3_column_type v = SQLITE_NULL)
    ∧ (Statement.GetColumnIsNull v = true ↔ v = ColumnValue.null)
    ∧ (sqlite3_column_text v = none ↔ Statement.GetColumnIsNull v = true)
    ∧ (Statement.GetColumnIsNull v = false →
        (ParameterSpecificsImpl.GetColumnString v).isSome = true)
    ∧ ParameterSpecificsImpl.GetColumnString (ColumnValue.text s) = some s := by
  cases v <;>
    simp [Statement.GetColumnIsNull, sqlite3_column_type,
      sqlite3_column_text, ParameterSpecificsImpl.GetColumnString,
      SQLITE_NULL]

/-- Witness for C9 on a concrete non-null text column. -/
theorem Statement.GetColumn_null_safety_witness :
    Statement.GetColumnIsNull (ColumnValue.text "abc") = false
    ∧ (ParameterSpecificsImpl.GetColumnString
        (ColumnValue.text "abc")).isSome = true
    ∧ ParameterSpecificsImpl.GetColumnString (ColumnValue.text "abc") =
        some "abc" :=
  ⟨by decide,
    (Statement.GetColumn_null_safety (ColumnValue.text "abc")
        "abc").2.2.2.1 (by decide),
    (Statement.GetColumn_null_safety (ColumnValue.text "abc") "abc").2.2.2.2⟩
